import Mathlib

/-!
# Claim-Polygraph: shallow embedding and verification

This file embeds the claim-verification pipeline of the repository
(`app.py`, `claim_processing/claim_worthiness.py`,
`claim_processing/claim_extraction.py`,
`google_fact_check/claim_search_google_api.py`) in Lean and proves or
refutes the specification's claims about it.

External collaborators (the ClaimBuster scoring HTTP API, the
text-generation model, the Google Fact Check Tools API, the text
acquisition step and the LLM assessment step) are modelled as oracles
packaged in a `World` value; every network interaction the code would
perform is recorded as an event (`Ev`) in an explicit trace, so facts
such as "the collaborator was (not) invoked" are stated about the trace.

Python's dynamic values are modelled by `JVal` (JSON-like values
produced by `response.json()`) and `PyLit` (Python literal values, the
image of `ast.literal_eval`).  A string returned by the text-generation
collaborator is abstracted by its `ast.literal_eval` parse: `Option
PyLit`, with `none` standing for text that is not a valid Python
literal.  Floating point scores are modelled by `ℚ`.
-/

namespace ClaimPolygraph

/-! ## Python string helpers (`re.sub(r'\s+', ' ', s)`, `str.strip()`) -/

/-- Whitespace as recognised by Python's `str.strip` / `re` `\s`
(ASCII subset: space, tab, newline, carriage return, vertical tab, form feed). -/
def isWs (c : Char) : Bool :=
  c = ' ' || c = '\t' || c = '\n' || c = '\r' || c = '\x0b' || c = '\x0c'

/-- Core of `re.sub(r'\s+', ' ', s)`: every maximal whitespace run becomes a
single space.  The flag records whether the previous character was whitespace. -/
def collapseAux : Bool → List Char → List Char
  | _, [] => []
  | prevWs, c :: cs =>
    if isWs c then
      if prevWs then collapseAux true cs else ' ' :: collapseAux true cs
    else
      c :: collapseAux false cs

/-- Model of `re.sub(r'\s+', ' ', s)` on a character list. -/
def collapseWsL (l : List Char) : List Char := collapseAux false l

/-- Drop a trailing whitespace run (right half of `str.strip()`). -/
def dropTrailingWs : List Char → List Char
  | [] => []
  | c :: cs =>
    let rest := dropTrailingWs cs
    if rest = [] && isWs c then [] else c :: rest

/-- Python `str.strip()` on a character list. -/
def pyStripL (l : List Char) : List Char := dropTrailingWs (l.dropWhile isWs)

/-- Python `str.strip()`. -/
def pyStrip (s : String) : String := String.mk (pyStripL s.toList)

/-! ## Sentence Segmenter (`claim_worthiness.split_into_sentences`) -/

/-- A sentence delimiter of the regex fallback `re.split(r'([.!?])', text)`. -/
def isDelim (c : Char) : Bool := c = '.' || c = '!' || c = '?'

/-- Model of `re.split(r'([.!?])', text)`: alternating list
`[text, delim, text, delim, …, text]` (delimiters kept, always odd length). -/
def regexParts : List Char → List (List Char)
  | [] => [[]]
  | c :: cs =>
    let rest := regexParts cs
    if isDelim c then [] :: [c] :: rest
    else
      match rest with
      | t :: more => (c :: t) :: more
      | [] => [[c]]

/-- The pairing loop of the regex fallback: each delimiter is glued to the text
preceding it, stripped, empties dropped; a trailing chunk without punctuation
is kept (stripped) as well. -/
def pairUnits : List (List Char) → List (List Char)
  | a :: b :: rest =>
    let s := pyStripL (a ++ b)
    if s = [] then pairUnits rest else s :: pairUnits rest
  | [t] =>
    let s := pyStripL t
    if s = [] then [] else [s]
  | [] => []

/-- The regex fallback splitter of `split_into_sentences`. -/
def fallbackUnits (t : List Char) : List (List Char) := pairUnits (regexParts t)

/-- The sentence-like units `split_into_sentences` post-processes: the primary
tokenizer's output when it produced any (`tok` returns `none` when
`sent_tokenize` raised), else the regex fallback on the stripped text. -/
def segUnits (tok : String → Option (List String)) (text : String) :
    List (List Char) :=
  let t := pyStripL text.toList
  match tok (String.mk t) with
  | Option.none => fallbackUnits t
  | some l => if l = [] then fallbackUnits t else l.map String.toList

/-- The per-unit normalisation of `split_into_sentences`: collapse internal
whitespace, strip, drop the unit if empty, rewrite a trailing `!`/`?` to `.`,
append `.` when no terminator is present. -/
def normalizeUnitL (u : List Char) : Option (List Char) :=
  let t := pyStripL (collapseWsL u)
  if t = [] then Option.none
  else
    match t.getLast? with
    | some '.' => some t
    | some '!' => some (t.dropLast ++ ['.'])
    | some '?' => some (t.dropLast ++ ['.'])
    | _ => some (t ++ ['.'])

/-- Embeds `claim_worthiness.split_into_sentences`.  The argument `tok` is the primary tokenizer
oracle (`nltk.sent_tokenize`); it receives the stripped text and returns
`none` when the tokenizer raised. -/
def split_into_sentences (tok : String → Option (List String)) (text : String) :
    List String :=
  let t := pyStripL text.toList
  if t = [] then []
  else ((segUnits tok text).filterMap normalizeUnitL).map String.mk

/-! ## Dynamic values, errors, events -/

/-- JSON-like values, the image of `response.json()`. -/
inductive JVal where
  | null
  | bool (b : Bool)
  | num (q : ℚ)
  | str (s : String)
  | arr (xs : List JVal)
  | obj (fields : List (String × JVal))

/-- Python literal values, the image of `ast.literal_eval`. -/
inductive PyLit where
  | str (s : String)
  | int (n : ℤ)
  | list (xs : List PyLit)
  | noneVal

/-- The error taxonomy of the specification (§7), used as the Lean face of the
exceptions the source raises: `SystemExit("Please set CLAIMBUSTER_API_KEY …")`
is a `configurationError`; `SystemExit("ClaimBuster API error …")`,
`SystemExit("Unexpected API response format …")` and the
`Exception("Error: {status} …")` of the search module are `upstreamError`s;
`ast.literal_eval` failure is a `parseError`; Python `TypeError` /
`AttributeError` on dynamic values keep their own constructors. -/
inductive Err where
  | configurationError (msg : String)
  | upstreamError (msg : String)
  | parseError (msg : String)
  | typeError (msg : String)
  | attributeError (msg : String)
deriving DecidableEq

/-- One collaborator invocation, as recorded in the event trace. -/
inductive Ev where
  | procCall (raw : String)
  | assessCall (text : String)
  | scoreCall (inputText : String)
  | llmCall (prompt : List JVal)
  | searchCall (q : PyLit)

/-- An HTTP response of a collaborator: status code and parsed JSON body. -/
structure HttpResp where
  status : Nat
  body : JVal

/-- Python truthiness of a `JVal` (`if sent …`, `a or b`). -/
def truthy : JVal → Bool
  | .null => false
  | .bool b => b
  | .num q => q ≠ 0
  | .str s => s ≠ ""
  | .arr xs => !xs.isEmpty
  | .obj f => !f.isEmpty

/-- Python `a or b`: `a` if truthy, else `b`. -/
def pyOr (a b : JVal) : JVal := if truthy a then a else b

/-- Dictionary lookup, `d.get(k)` with `None` for a missing key. -/
def pyGet (fields : List (String × JVal)) (k : String) : Option JVal :=
  (fields.find? (fun kv => kv.1 = k)).map (fun kv => kv.2)

/-- Python `d.get(k)` as a `JVal` (missing key gives Python `None`, i.e. `.null`). -/
def pyGetV (fields : List (String × JVal)) (k : String) : JVal :=
  (pyGet fields k).getD .null

/-- Python `isinstance(v, (int, float))`.  Python `bool` is a subclass of `int`. -/
def isNumLike : JVal → Bool
  | .num _ => true
  | .bool _ => true
  | _ => false

/-- Python `float(v)` on a numeric-like value. -/
def toQ : JVal → ℚ
  | .num q => q
  | .bool b => if b then 1 else 0
  | _ => 0

/-- Python truthiness of an `Optional[str]` credential. -/
def truthyOS : Option String → Bool
  | Option.none => false
  | some s => s ≠ ""

/-! ## Checkworthiness Scorer (`claim_worthiness.score_sentences`,
`claim_worthiness.top_checkworthy_sentences`) -/

/-- One item of a list-shaped ClaimBuster response:
`sent = item.get("sentence") or item.get("text") or ""`,
`score = item.get("score") or item.get("checkworthiness") or item.get("value")`,
kept when `sent` is truthy and `score` is numeric; non-dict items skipped. -/
def pairOfItem : JVal → Option (JVal × ℚ)
  | .obj f =>
    let sent := pyOr (pyOr (pyGetV f "sentence") (pyGetV f "text")) (.str "")
    let score := pyOr (pyOr (pyGetV f "score") (pyGetV f "checkworthiness"))
      (pyGetV f "value")
    if truthy sent && isNumLike score then some (sent, toQ score) else Option.none
  | _ => Option.none

/-- The response-shape handling of `score_sentences`: a list of items, a dict
with a `"results"` list, a plain dict of sentence→score pairs; anything else is
`SystemExit("Unexpected API response format …")`. -/
def parseScoreBody : JVal → Except Err (List (JVal × ℚ))
  | .arr items => .ok (items.filterMap pairOfItem)
  | .obj fields =>
    match pyGet fields "results" with
    | some (.arr items) => .ok (items.filterMap pairOfItem)
    | _ =>
      .ok (fields.filterMap (fun kv =>
        if isNumLike kv.2 then some (JVal.str kv.1, toQ kv.2) else Option.none))
  | _ => .error (.upstreamError "Unexpected API response format")

/-- The joined batch `input_text = " ".join(s.strip() for s in sentences if s.strip())`. -/
def join_input (sentences : List String) : String :=
  String.intercalate " "
    ((sentences.filter (fun s => pyStrip s ≠ "")).map pyStrip)

/-- Embeds `claim_worthiness.score_sentences`.  The argument `api` is the ClaimBuster batch
endpoint oracle keyed by the submitted `input_text`; the returned event list
records the request.  An empty sentence list returns `[]` without any request;
`resp.raise_for_status()` raises for 4xx/5xx statuses. -/
def score_sentences (sentences : List String) (api : String → HttpResp) :
    Except Err (List (JVal × ℚ)) × List Ev :=
  if sentences.isEmpty then (.ok [], [])
  else
    let it := join_input sentences
    let resp := api it
    if 400 ≤ resp.status && resp.status < 600 then
      (.error (.upstreamError "ClaimBuster API error"), [.scoreCall it])
    else (parseScoreBody resp.body, [.scoreCall it])

/-- The filter `scored = [item for item in scored if item[1] >= 0.5]`
(`mkRat 1 2` is the rational 0.5). -/
def filter_scored (scored : List (JVal × ℚ)) : List (JVal × ℚ) :=
  scored.filter (fun p => decide (mkRat 1 2 ≤ p.2))

/-- The descending comparison `key=lambda x: x[1], reverse=True` sorts by. -/
def scoreGE (a b : JVal × ℚ) : Prop := b.2 ≤ a.2

instance : DecidableRel scoreGE := fun a b => inferInstanceAs (Decidable (b.2 ≤ a.2))

instance : IsTotal (JVal × ℚ) scoreGE := ⟨fun a b => le_total b.2 a.2⟩

instance : IsTrans (JVal × ℚ) scoreGE := ⟨fun _ _ _ h1 h2 => le_trans h2 h1⟩

/-- The sort `scored.sort(key=lambda x: x[1], reverse=True)`: a stable descending sort
by score.  Python's `list.sort` is stable, and a stable sort's output is
uniquely determined by the input and the comparison, so insertion sort (whose
sortedness and stability are proved below) computes the same list. -/
def sort_scored (scored : List (JVal × ℚ)) : List (JVal × ℚ) :=
  (filter_scored scored).insertionSort scoreGE

/-- The truncation `return scored[:max(0, top_k)]` after filtering and sorting. -/
def rank_scored (scored : List (JVal × ℚ)) (top_k : ℤ) : List (JVal × ℚ) :=
  (sort_scored scored).take (max 0 top_k).toNat

/-- The collaborator oracles of one run.  `tok` is the sentence tokenizer
(may fail: `none`); `keyEnv` is `os.getenv("CLAIMBUSTER_API_KEY")`;
`scoreApi` the ClaimBuster endpoint keyed by `input_text`; `llmResp` the
text-generation collaborator keyed by the prompt's ranked sentences, its
returned text abstracted by its `ast.literal_eval` parse (`none` = text that
is not a valid Python literal); `searchApi` the Google Fact Check Tools
endpoint keyed by the query; `procResp` is `processor.process_input`
(extracted text and warnings); `assessResp` is
`llm_fact_checker.fact_check` composed with `json.loads`. -/
structure World where
  tok : String → Option (List String)
  keyEnv : Option String
  scoreApi : String → HttpResp
  llmResp : List JVal → Option PyLit
  searchApi : PyLit → HttpResp
  procResp : String → Except Err (String × List String)
  assessResp : String → Except Err PyLit

/-- The credential resolution `api_key = api_key or os.getenv("CLAIMBUSTER_API_KEY")`. -/
def effectiveKey (api_key envKey : Option String) : Option String :=
  if truthyOS api_key then api_key else envKey

/-- Embeds `claim_worthiness.top_checkworthy_sentences(text, api_key, top_k)`:
resolve the credential (`api_key = api_key or os.getenv(…)`, raise
`SystemExit` when falsy), segment, score, filter at 0.5, sort descending,
take `top_k`. -/
def top_checkworthy_sentences (w : World) (text : String)
    (api_key : Option String) (top_k : ℤ) :
    Except Err (List (JVal × ℚ)) × List Ev :=
  if truthyOS (effectiveKey api_key w.keyEnv) = false then
    (.error (.configurationError
      "Please set CLAIMBUSTER_API_KEY env var or pass api_key argument."), [])
  else
    match score_sentences (split_into_sentences w.tok text) w.scoreApi with
    | (.error e, evs) => (.error e, evs)
    | (.ok scored, evs) => (.ok (rank_scored scored top_k), evs)

/-! ## Claim Extractor (`claim_extraction`) -/

/-- Embeds `claim_extraction.check_worth_paragraph`: the texts of the top
checkworthy sentences (`[sent for sent, _ in top_results]`). -/
def check_worth_paragraph (w : World) (paragraph : String) :
    Except Err (List JVal) × List Ev :=
  match top_checkworthy_sentences w paragraph Option.none 3 with
  | (.error e, evs) => (.error e, evs)
  | (.ok top, evs) => (.ok (top.map (fun p => p.1)), evs)

/-- Modelled from the spec: `llm_wrapper.prompt_builder.build_prompt_to_extract_Claims`
is not under `src/`; per §4.3 it "builds a single instruction from the ranked
sentence texts (order preserved)", so a prompt is identified with its ranked
sentence list. -/
def build_prompt_to_extract_Claims (sents : List JVal) : List JVal := sents

/-- Embeds `claim_extraction.extract_claims(paragraph)`: re-runs the scorer on the
raw paragraph, builds the prompt, and invokes the text-generation
collaborator (`llm_wrapper.llm_inference.generate_response_40`, not under
`src/`, modelled as the `llmResp` oracle; its returned text is abstracted by
its literal parse). -/
def extract_claims (w : World) (paragraph : String) :
    Except Err (Option PyLit) × List Ev :=
  match check_worth_paragraph w paragraph with
  | (.error e, evs) => (.error e, evs)
  | (.ok sents, evs) =>
    let prompt := build_prompt_to_extract_Claims sents
    (.ok (w.llmResp prompt), evs ++ [.llmCall prompt])

/-- Model of `ast.literal_eval` on the abstracted collaborator text: `none` (not a
valid Python literal) raises `ValueError: malformed node or string`. -/
def literal_eval : Option PyLit → Except Err PyLit
  | Option.none => .error (.parseError "malformed node or string")
  | some v => .ok v

/-- Python `for x in v` on a literal: lists yield their elements, strings
their characters (as one-character strings), anything else raises
`TypeError`. -/
def pyIterate : PyLit → Except Err (List PyLit)
  | .list xs => .ok xs
  | .str s => .ok (s.toList.map (fun c => PyLit.str (String.mk [c])))
  | _ => .error (.typeError "object is not iterable")

/-- Whether a literal is a list whose elements are all strings (the shape the
pipeline expects from the extraction collaborator). -/
def isListOfStrings : PyLit → Bool
  | .list xs => xs.all (fun x => match x with | .str _ => true | _ => false)
  | _ => false

/-! ## Fact-Check Aggregator (`claim_search_google_api.search_fact_checks`) -/

/-- A normalized fact-check record, as the dict built per review. -/
structure FactCheckRecord where
  claim : JVal
  date : JVal
  publisher : JVal
  title : JVal
  url : JVal
  rating : JVal

/-- Python `v.get(k, dflt)`: dictionary lookup with default; a non-dict receiver
raises `AttributeError`. -/
def pyDictGet (v : JVal) (k : String) (dflt : JVal) : Except Err JVal :=
  match v with
  | .obj fields => .ok ((pyGet fields k).getD dflt)
  | _ => .error (.attributeError "object has no attribute get")

/-- Python `for x in v` on a JSON value: lists yield elements, strings
characters, dicts their keys; anything else raises `TypeError`. -/
def iterArr : JVal → Except Err (List JVal)
  | .arr xs => .ok xs
  | .str s => .ok (s.toList.map (fun c => JVal.str (String.mk [c])))
  | .obj fields => .ok (fields.map (fun kv => JVal.str kv.1))
  | _ => .error (.typeError "object is not iterable")

/-- The record built for one review:
`publisher = review.get("publisher", {}).get("name", "Unknown publisher")`,
`title = review.get("title", "No title")`, `url = review.get("url", "No URL")`,
`rating = review.get("textualRating", "No rating")`. -/
def mkRecord (ctext cdate review : JVal) : Except Err FactCheckRecord :=
  match pyDictGet review "publisher" (.obj []) with
  | .error e => .error e
  | .ok pub =>
    match pyDictGet pub "name" (.str "Unknown publisher") with
    | .error e => .error e
    | .ok publisher =>
      match pyDictGet review "title" (.str "No title") with
      | .error e => .error e
      | .ok title =>
        match pyDictGet review "url" (.str "No URL") with
        | .error e => .error e
        | .ok url =>
          match pyDictGet review "textualRating" (.str "No rating") with
          | .error e => .error e
          | .ok rating => .ok ⟨ctext, cdate, publisher, title, url, rating⟩

/-- The inner loop over `claim.get("claimReview", [])`. -/
def processReviews (ctext cdate : JVal) : List JVal →
    Except Err (List FactCheckRecord)
  | [] => .ok []
  | r :: rs =>
    match mkRecord ctext cdate r with
    | .error e => .error e
    | .ok r1 =>
      match processReviews ctext cdate rs with
      | .error e => .error e
      | .ok rest => .ok (r1 :: rest)

/-- The outer loop over `data.get("claims", [])`:
`claim_text = claim.get("text", "No claim text")`,
`claim_date = claim.get("claimDate", "Unknown date")`, then one record per
review, appended in order. -/
def processClaims : List JVal → Except Err (List FactCheckRecord)
  | [] => .ok []
  | c :: cs =>
    match pyDictGet c "text" (.str "No claim text") with
    | .error e => .error e
    | .ok ctext =>
      match pyDictGet c "claimDate" (.str "Unknown date") with
      | .error e => .error e
      | .ok cdate =>
        match pyDictGet c "claimReview" (.arr []) with
        | .error e => .error e
        | .ok reviewsV =>
          match iterArr reviewsV with
          | .error e => .error e
          | .ok reviews =>
            match processReviews ctext cdate reviews with
            | .error e => .error e
            | .ok rs =>
              match processClaims cs with
              | .error e => .error e
              | .ok rest => .ok (rs ++ rest)

/-- Embeds `claim_search_google_api.search_fact_checks(query)`: a non-200 status
raises `Exception("Error: …")`; otherwise the nested claims/reviews of the
body are flattened into records. -/
def search_fact_checks (_query : PyLit) (resp : HttpResp) :
    Except Err (List FactCheckRecord) :=
  if resp.status ≠ 200 then
    .error (.upstreamError "Error from Fact Check Tools API")
  else
    match pyDictGet resp.body "claims" (.arr []) with
    | .error e => .error e
    | .ok claimsV =>
      match iterArr claimsV with
      | .error e => .error e
      | .ok claims => processClaims claims

/-! ## Pipeline Orchestrator (`app.index`, POST branch) -/

/-- The template context `render_template("index.html", …)` receives — the
report returned to the caller.  `flashes` records `flash(str(e), "error")`
messages (as their `Err`). -/
structure Report where
  text : Option String
  warnings : List String
  raw_input : String
  factcheck : Option PyLit
  fact_checks : Option (List FactCheckRecord)
  claim_worthy : Option (List (JVal × ℚ))
  flashes : List Err

/-- The loop `for claim in claim_list: fact_checks = search_fact_checks(claim)`:
reassigns the single `fact_checks` variable each iteration; an exception stops
the loop, leaving the variable at its last assigned value.  Returns the final
variable value, the error if one occurred, and the trace of search requests. -/
def searchLoop (w : World) :
    List PyLit → Option (List FactCheckRecord) →
    (Option (List FactCheckRecord) × Option Err) × List Ev
  | [], fc => ((fc, Option.none), [])
  | c :: rest, fc =>
    match search_fact_checks c (w.searchApi c) with
    | .error e => ((fc, some e), [.searchCall c])
    | .ok recs =>
      let res := searchLoop w rest (some recs)
      (res.1, .searchCall c :: res.2)

/-- Embeds `app.index`, POST branch: run `process_input`, the LLM fact-check plus
`json.loads`, `top_checkworthy_sentences(text, api_key=None, top_k=3)`,
`extract_claims`, `ast.literal_eval`, then the per-claim search loop;
the first exception anywhere in the `try` block is flashed and the template
is rendered with the values computed so far (`warnings = w` is only reached
after the loop). -/
def index (w : World) (raw : String) : Report × List Ev :=
  let r0 : Report :=
    { text := Option.none, warnings := [], raw_input := raw,
      factcheck := Option.none, fact_checks := Option.none,
      claim_worthy := Option.none, flashes := [] }
  if raw = "" then (r0, [])
  else
    match w.procResp raw with
    | .error e => ({ r0 with flashes := [e] }, [.procCall raw])
    | .ok (t, wrn) =>
      let r1 := { r0 with text := some t }
      match w.assessResp t with
      | .error e => ({ r1 with flashes := [e] }, [.procCall raw, .assessCall t])
      | .ok fcj =>
        let r2 := { r1 with factcheck := some fcj }
        let evs0 : List Ev := [.procCall raw, .assessCall t]
        match top_checkworthy_sentences w t Option.none 3 with
        | (.error e, evs) => ({ r2 with flashes := [e] }, evs0 ++ evs)
        | (.ok cw, evs) =>
          let r3 := { r2 with claim_worthy := some cw }
          let evs1 := evs0 ++ evs
          match extract_claims w t with
          | (.error e, evs2) => ({ r3 with flashes := [e] }, evs1 ++ evs2)
          | (.ok txt, evs2) =>
            let evs3 := evs1 ++ evs2
            match literal_eval txt with
            | .error e => ({ r3 with flashes := [e] }, evs3)
            | .ok lit =>
              match pyIterate lit with
              | .error e => ({ r3 with flashes := [e] }, evs3)
              | .ok cl =>
                let res := searchLoop w cl Option.none
                match res.1.2 with
                | some e =>
                  ({ r3 with fact_checks := res.1.1, flashes := [e] },
                    evs3 ++ res.2)
                | Option.none =>
                  ({ r3 with fact_checks := res.1.1, warnings := wrn },
                    evs3 ++ res.2)

/-- Whether an event is a scoring-collaborator request. -/
def isScoreCall : Ev → Bool
  | .scoreCall _ => true
  | _ => false

/-- Whether an event is a fact-check-search request. -/
def isSearchCall : Ev → Bool
  | .searchCall _ => true
  | _ => false

/-! ## Concrete worlds for witnesses and counterexamples -/

/-- A sample input paragraph. -/
def para : String := "The WHO was founded in 1948."

/-- A list-shaped ClaimBuster response body scoring `para` at 0.9. -/
def okBody : JVal :=
  .arr [.obj [("text", .str "The WHO was founded in 1948."),
              ("score", .num (mkRat 9 10))]]

/-- A search response body: one claim (`claim A`) with one review titled
`TA`; the review's other fields are missing. -/
def bodyA : JVal :=
  .obj [("claims", .arr [.obj [("text", .str "claim A"),
    ("claimReview", .arr [.obj [("title", .str "TA")]])]])]

/-- Like `bodyA`, for `claim B` / title `TB`. -/
def bodyB : JVal :=
  .obj [("claims", .arr [.obj [("text", .str "claim B"),
    ("claimReview", .arr [.obj [("title", .str "TB")]])]])]

/-- The record the aggregator builds from `bodyA`. -/
def recA : FactCheckRecord :=
  ⟨.str "claim A", .str "Unknown date", .str "Unknown publisher",
   .str "TA", .str "No URL", .str "No rating"⟩

/-- The record the aggregator builds from `bodyB`. -/
def recB : FactCheckRecord :=
  ⟨.str "claim B", .str "Unknown date", .str "Unknown publisher",
   .str "TB", .str "No URL", .str "No rating"⟩

/-- A world in which every collaborator succeeds: scoring returns `okBody`,
extraction returns the literal `["a", "b"]`, every search finds no claims. -/
def wOk : World where
  tok := fun _ => Option.none
  keyEnv := some "k"
  scoreApi := fun _ => ⟨200, okBody⟩
  llmResp := fun _ => some (.list [.str "a", .str "b"])
  searchApi := fun _ => ⟨200, .obj [("claims", .arr [])]⟩
  procResp := fun r => .ok (r, [])
  assessResp := fun _ => .ok (.str "ok")

/-- Like `wOk`, but each claim's search finds a distinct record
(`bodyA` for query `"a"`, `bodyB` otherwise). -/
def wDrop : World :=
  { wOk with
    searchApi := fun q => match q with
      | .str "a" => ⟨200, bodyA⟩
      | _ => ⟨200, bodyB⟩ }

/-- Like `wOk`, but the search for query `"a"` fails with HTTP 500. -/
def wFail : World :=
  { wOk with
    searchApi := fun q => match q with
      | .str "a" => ⟨500, .obj []⟩
      | _ => ⟨200, bodyB⟩ }

/-- Like `wOk`, but the extraction collaborator's text parses to the literal
`[1, 2]` — a list, but not a list of strings. -/
def wInts : World :=
  { wOk with llmResp := fun _ => some (.list [.int 1, .int 2]) }

/-- Like `wOk`, but the extraction collaborator's text is not a valid Python
literal. -/
def wNoParse : World :=
  { wOk with llmResp := fun _ => Option.none }

/-- Like `wOk`, but no ClaimBuster credential is configured. -/
def wNoKey : World := { wOk with keyEnv := Option.none }

/-- Like `wOk`, but the scoring collaborator answers HTTP 500. -/
def wBadStatus : World :=
  { wOk with scoreApi := fun _ => ⟨500, .null⟩ }

/-- Like `wOk`, but the scoring collaborator's body is a bare string —
neither a list nor a mapping. -/
def wBadShape : World :=
  { wOk with scoreApi := fun _ => ⟨200, .str "what"⟩ }

/-- Like `wOk`, but the scoring collaborator scores the sentence 0.3 — below
the 0.5 threshold, so the ranked list comes out empty. -/
def wLow : World :=
  { wOk with
    scoreApi := fun _ =>
      ⟨200, .arr [.obj [("text", .str "The WHO was founded in 1948."),
                        ("score", .num (mkRat 3 10))]]⟩ }

/-- The ranked-sentence list `wOk`'s scorer produces for `para`. -/
def cwOk : List (JVal × ℚ) :=
  [(.str "The WHO was founded in 1948.", mkRat 9 10)]

/-- A scoring-response body that is neither a list nor a mapping. -/
def shapeless : JVal → Bool
  | .arr _ => false
  | .obj _ => false
  | _ => true

/-- Total version of `v.get(k, d)` (non-dicts give the default); the
spec-side description of the aggregator's field access. -/
def jGetD (v : JVal) (k : String) (d : JVal) : JVal :=
  match v with
  | .obj f => (pyGet f k).getD d
  | _ => d

/-- A review object of the shape §3's data model describes: a dict whose
`publisher` value, when present, is itself a dict. -/
def reviewOk : JVal → Bool
  | .obj f =>
    match pyGet f "publisher" with
    | some (.obj _) => true
    | Option.none => true
    | _ => false
  | _ => false

/-- A claim object of §3's shape: a dict whose `claimReview` value, when
present, is a list of well-shaped review objects. -/
def claimOk : JVal → Bool
  | .obj f =>
    match pyGet f "claimReview" with
    | some (.arr rs) => rs.all reviewOk
    | Option.none => true
    | _ => false
  | _ => false

/-- A response body of §3's shape: a dict whose `claims` value, when present,
is a list of well-shaped claim objects. -/
def bodyOk : JVal → Bool
  | .obj f =>
    match pyGet f "claims" with
    | some (.arr cs) => cs.all claimOk
    | Option.none => true
    | _ => false
  | _ => false

/-- The claim objects of a response body (absent key: none). -/
def claimsOf (b : JVal) : List JVal :=
  match b with
  | .obj f =>
    match pyGet f "claims" with
    | some (.arr cs) => cs
    | _ => []
  | _ => []

/-- The review objects of a claim object (absent key: none). -/
def reviewsOf (c : JVal) : List JVal :=
  match c with
  | .obj f =>
    match pyGet f "claimReview" with
    | some (.arr rs) => rs
    | _ => []
  | _ => []

/-- The record built for one review, given the claim-level text and date:
every missing field is replaced by its explicit sentinel string. -/
def reviewRecord (ctext cdate r : JVal) : FactCheckRecord :=
  ⟨ctext, cdate,
   jGetD (jGetD r "publisher" (.obj [])) "name" (.str "Unknown publisher"),
   jGetD r "title" (.str "No title"), jGetD r "url" (.str "No URL"),
   jGetD r "textualRating" (.str "No rating")⟩

/-- The spec-shaped record for one (claim, review) pair. -/
def recordOf (c r : JVal) : FactCheckRecord :=
  reviewRecord (jGetD c "text" (.str "No claim text"))
    (jGetD c "claimDate" (.str "Unknown date")) r

/-! ## Lemmas: whitespace normalisation (toward claim C8) -/

/-- Every whitespace character of the list is a plain space. -/
def wsSpace (l : List Char) : Bool := l.all (fun c => !isWs c || c = ' ')

/-- No two adjacent whitespace characters. -/
def noWsRun : List Char → Bool
  | a :: b :: rest => (!(isWs a && isWs b)) && noWsRun (b :: rest)
  | _ => true

/-- Head of the list, if any, is not whitespace. -/
def headOk : List Char → Bool
  | [] => true
  | c :: _ => !isWs c

theorem noWsRun_tail {a : Char} {l : List Char} (h : noWsRun (a :: l) = true) :
    noWsRun l = true := by
  cases l with
  | nil => rfl
  | cons b rest => exact (Bool.and_eq_true ..|>.mp h).2

theorem noWsRun_append_left {l t : List Char} (h : noWsRun (l ++ t) = true) :
    noWsRun l = true := by
  induction l with
  | nil => rfl
  | cons a l ih =>
    cases l with
    | nil => rfl
    | cons b rest =>
      have h' : noWsRun (a :: b :: (rest ++ t)) = true := by simpa using h
      have h1 := (Bool.and_eq_true ..|>.mp h').1
      have h2 := (Bool.and_eq_true ..|>.mp h').2
      have h3 : noWsRun (b :: rest) = true := ih (by simpa using h2)
      simp only [noWsRun, Bool.and_eq_true]
      exact ⟨h1, h3⟩

theorem noWsRun_append_right {t l : List Char} (h : noWsRun (t ++ l) = true) :
    noWsRun l = true := by
  induction t with
  | nil => simpa using h
  | cons a t ih => exact ih (noWsRun_tail (by simpa using h))

theorem noWsRun_concat {l : List Char} {c : Char} (h : noWsRun l = true)
    (hc : isWs c = false) : noWsRun (l ++ [c]) = true := by
  induction l with
  | nil => rfl
  | cons a l ih =>
    cases l with
    | nil => simp [noWsRun, hc]
    | cons b rest =>
      have h1 := (Bool.and_eq_true ..|>.mp h).1
      have h2 := (Bool.and_eq_true ..|>.mp h).2
      have h3 := ih h2
      simp only [List.cons_append, noWsRun, Bool.and_eq_true] at h3 ⊢
      exact ⟨h1, h3⟩

theorem collapseAux_ws_space (l : List Char) :
    ∀ b, ∀ c ∈ collapseAux b l, isWs c = true → c = ' ' := by
  induction l with
  | nil => intro b c hc; simp [collapseAux] at hc
  | cons a as ih =>
    intro b c hc hw
    unfold collapseAux at hc
    by_cases ha : isWs a = true
    · simp only [ha, if_true] at hc
      cases b with
      | true => exact ih true c hc hw
      | false =>
        simp only [Bool.false_eq_true, if_false] at hc
        rcases List.mem_cons.mp hc with h | h
        · exact h
        · exact ih true c h hw
    · simp only [ha, if_false, Bool.false_eq_true] at hc
      rcases List.mem_cons.mp hc with h | h
      · exact absurd (h ▸ hw) (by simpa using ha)
      · exact ih false c h hw

theorem collapseAux_headOk (l : List Char) :
    headOk (collapseAux true l) = true := by
  induction l with
  | nil => rfl
  | cons a as ih =>
    unfold collapseAux
    by_cases ha : isWs a = true
    · simpa [ha] using ih
    · simp [ha, headOk]

theorem collapseAux_noWsRun (l : List Char) :
    ∀ b, noWsRun (collapseAux b l) = true := by
  induction l with
  | nil => intro b; rfl
  | cons a as ih =>
    intro b
    unfold collapseAux
    by_cases ha : isWs a = true
    · simp only [ha, if_true]
      cases b with
      | true => exact ih true
      | false =>
        simp only [Bool.false_eq_true, if_false]
        cases h : collapseAux true as with
        | nil => rfl
        | cons d ds =>
          have hd : headOk (d :: ds) = true := h ▸ collapseAux_headOk as
          have hrest : noWsRun (d :: ds) = true := h ▸ ih true
          have hd' : isWs d = false := by simpa [headOk] using hd
          simp [noWsRun, hrest, hd']
    · simp only [ha, if_false, Bool.false_eq_true]
      cases h : collapseAux false as with
      | nil => rfl
      | cons d ds =>
        have hrest : noWsRun (d :: ds) = true := h ▸ ih false
        simp [noWsRun, hrest, ha]

theorem dropTrailingWs_exists (l : List Char) :
    ∃ t, l = dropTrailingWs l ++ t := by
  induction l with
  | nil => exact ⟨[], rfl⟩
  | cons c cs ih =>
    obtain ⟨t, ht⟩ := ih
    unfold dropTrailingWs
    by_cases h : dropTrailingWs cs = [] ∧ isWs c = true
    · refine ⟨c :: cs, ?_⟩
      simp [h.1, h.2]
    · have : (dropTrailingWs cs = [] && isWs c) = false := by
        rcases not_and_or.mp h with h' | h'
        · simp [h']
        · simp [Bool.eq_false_iff.mpr h']
      simp only [decide_eq_true_eq, this]
      refine ⟨t, ?_⟩
      simp only [Bool.false_eq_true, if_false, List.cons_append]
      exact congrArg (c :: ·) ht

theorem pyStripL_exists (l : List Char) :
    ∃ p t, l = p ++ pyStripL l ++ t := by
  obtain ⟨t, ht⟩ := dropTrailingWs_exists (l.dropWhile isWs)
  refine ⟨l.takeWhile isWs, t, ?_⟩
  conv_lhs => rw [← List.takeWhile_append_dropWhile (p := isWs) (l := l)]
  rw [ht]
  simp [pyStripL]

theorem wsSpace_append_left {l t : List Char} (h : wsSpace (l ++ t) = true) :
    wsSpace l = true := by
  simp only [wsSpace, List.all_eq_true, List.mem_append] at h ⊢
  exact fun c hc => h c (Or.inl hc)

theorem wsSpace_append_right {t l : List Char} (h : wsSpace (t ++ l) = true) :
    wsSpace l = true := by
  simp only [wsSpace, List.all_eq_true, List.mem_append] at h ⊢
  exact fun c hc => h c (Or.inr hc)

theorem pyStripL_wsSpace {l : List Char} (h : wsSpace l = true) :
    wsSpace (pyStripL l) = true := by
  obtain ⟨p, t, hpt⟩ := pyStripL_exists l
  rw [hpt] at h
  exact wsSpace_append_left (wsSpace_append_right (by simpa using h))

theorem pyStripL_noWsRun {l : List Char} (h : noWsRun l = true) :
    noWsRun (pyStripL l) = true := by
  obtain ⟨p, t, hpt⟩ := pyStripL_exists l
  rw [hpt] at h
  exact noWsRun_append_left (noWsRun_append_right (l := pyStripL l ++ t) (by simpa using h))

theorem collapse_strip_wsSpace (u : List Char) :
    wsSpace (pyStripL (collapseWsL u)) = true := by
  apply pyStripL_wsSpace
  simp only [wsSpace, List.all_eq_true]
  intro c hc
  by_cases hw : isWs c = true
  · simp [collapseAux_ws_space u false c hc hw]
  · simp [hw]

theorem collapse_strip_noWsRun (u : List Char) :
    noWsRun (pyStripL (collapseWsL u)) = true :=
  pyStripL_noWsRun (collapseAux_noWsRun u false)

theorem concat_dot_props {l : List Char} (hw : wsSpace l = true)
    (hr : noWsRun l = true) :
    l ++ ['.'] ≠ [] ∧ (l ++ ['.']).getLast? = some '.' ∧
      wsSpace (l ++ ['.']) = true ∧ noWsRun (l ++ ['.']) = true := by
  refine ⟨by simp, by simp, ?_, noWsRun_concat hr (by decide)⟩
  simp only [wsSpace, List.all_eq_true, List.mem_append, List.mem_singleton] at hw ⊢
  rintro c (hc | rfl)
  · exact hw c hc
  · decide

theorem normalizeUnitL_props {u t' : List Char}
    (h : normalizeUnitL u = some t') :
    t' ≠ [] ∧ t'.getLast? = some '.' ∧ wsSpace t' = true ∧ noWsRun t' = true := by
  have hw : wsSpace (pyStripL (collapseWsL u)) = true := collapse_strip_wsSpace u
  have hr : noWsRun (pyStripL (collapseWsL u)) = true := collapse_strip_noWsRun u
  unfold normalizeUnitL at h
  set t := pyStripL (collapseWsL u) with ht
  by_cases h0 : t = []
  · simp [h0] at h
  · simp only [if_neg h0] at h
    have hw' : wsSpace t.dropLast = true := by
      have := List.dropLast_append_getLast (l := t) h0
      exact wsSpace_append_left (this ▸ hw)
    have hr' : noWsRun t.dropLast = true := by
      have := List.dropLast_append_getLast (l := t) h0
      exact noWsRun_append_left (this ▸ hr)
    split at h
    · injection h with h2
      subst h2
      exact ⟨h0, by assumption, hw, hr⟩
    · injection h with h2
      subst h2
      exact concat_dot_props hw' hr'
    · injection h with h2
      subst h2
      exact concat_dot_props hw' hr'
    · injection h with h2
      subst h2
      exact concat_dot_props hw hr

/-! ## Claim C8 -/

/-- Claim C8: every sentence produced by the segmenter is non-empty and ends
with `'.'`; its whitespace is collapsed (all whitespace is a single space,
never two adjacent); and the output is the order-preserving image
(`filterMap`) of the sentence-like units in their order of appearance, with
empty units dropped. -/
theorem claim8_segmenter (tok : String → Option (List String)) (text : String) :
    (∀ s ∈ split_into_sentences tok text,
      s.toList ≠ [] ∧ s.toList.getLast? = some '.' ∧
        wsSpace s.toList = true ∧ noWsRun s.toList = true) ∧
    split_into_sentences tok text =
      (if pyStripL text.toList = [] then []
       else ((segUnits tok text).filterMap normalizeUnitL).map String.mk) := by
  constructor
  · intro s hs
    simp only [split_into_sentences] at hs
    split at hs
    · simp at hs
    · simp only [List.mem_map] at hs
      obtain ⟨l, hl, rfl⟩ := hs
      obtain ⟨u, _, hnorm⟩ := List.mem_filterMap.mp hl
      exact normalizeUnitL_props hnorm
  · rfl

/-- Witness for C8 at a concrete tokenizer-failure input. -/
theorem claim8_segmenter_w :
    "hi there." ∈ split_into_sentences (fun _ => Option.none) "hi there!\tbye" ∧
      ("hi there.".toList ≠ [] ∧ "hi there.".toList.getLast? = some '.' ∧
        wsSpace "hi there.".toList = true ∧ noWsRun "hi there.".toList = true) :=
  ⟨by decide,
   (claim8_segmenter (fun _ => Option.none) "hi there!\tbye").1 _ (by decide)⟩

/-! ## Lemmas: the scorer's ranking step -/

theorem top_checkworthy_ok {w : World} {text : String} {key : Option String}
    {k : ℤ} {l : List (JVal × ℚ)} {evs : List Ev}
    (h : top_checkworthy_sentences w text key k = (.ok l, evs)) :
    ∃ scored, l = rank_scored scored k := by
  unfold top_checkworthy_sentences at h
  split at h
  · simp at h
  · split at h
    · simp at h
    · rename_i scored evs' heq
      simp only [Prod.mk.injEq, Except.ok.injEq] at h
      exact ⟨scored, h.1.symm⟩

theorem mkRat_one_two : (mkRat 1 2 : ℚ) = 1/2 := by norm_num

theorem rank_scored_mem_score {scored : List (JVal × ℚ)} {k : ℤ} {p : JVal × ℚ}
    (hp : p ∈ rank_scored scored k) : (1 : ℚ)/2 ≤ p.2 := by
  have h1 : p ∈ sort_scored scored := List.mem_of_mem_take hp
  have h2 : p ∈ filter_scored scored :=
    (List.Perm.mem_iff (List.perm_insertionSort scoreGE (filter_scored scored))).mp h1
  have h3 := of_decide_eq_true (List.mem_filter.mp h2).2
  rwa [mkRat_one_two] at h3

/-! ## Claim C6 -/

/-- Claim C6: the ranking step never returns a sentence scored below the 0.5
threshold (the hard cut the code applies) and never more than `top_k`
sentences; a non-positive `top_k` yields the empty list; and an empty ranked
list is a valid non-error outcome (exhibited by the world `wLow`, whose only
sentence scores 0.3). -/
theorem claim6_threshold_topk (w : World) (text : String) (key : Option String)
    (k : ℤ) (l : List (JVal × ℚ)) (evs : List Ev)
    (h : top_checkworthy_sentences w text key k = (.ok l, evs)) :
    (∀ p ∈ l, (1 : ℚ)/2 ≤ p.2) ∧ l.length ≤ (max 0 k).toNat ∧
      (0 ≤ k → (l.length : ℤ) ≤ k) ∧ (k ≤ 0 → l = []) ∧
      top_checkworthy_sentences wLow para Option.none 3 =
        (.ok [], [.scoreCall para]) := by
  obtain ⟨scored, rfl⟩ := top_checkworthy_ok h
  refine ⟨fun p hp => rank_scored_mem_score hp, List.length_take_le _ _, ?_, ?_, rfl⟩
  · intro hk
    have h1 : (rank_scored scored k).length ≤ (max 0 k).toNat :=
      List.length_take_le _ _
    have h2 : max 0 k = k := max_eq_right hk
    rw [h2] at h1
    omega
  · intro hk
    have h2 : (max 0 k).toNat = 0 := by omega
    simp [rank_scored, h2]

/-- Witness for C6 at the concrete world `wOk`. -/
theorem claim6_threshold_topk_w :
    (∀ p ∈ cwOk, (1 : ℚ)/2 ≤ p.2) ∧ cwOk.length ≤ (max 0 (3 : ℤ)).toNat ∧
      ((0 : ℤ) ≤ 3 → (cwOk.length : ℤ) ≤ 3) ∧ ((3 : ℤ) ≤ 0 → cwOk = []) ∧
      top_checkworthy_sentences wLow para Option.none 3 =
        (.ok [], [.scoreCall para]) :=
  claim6_threshold_topk wOk para Option.none 3 cwOk [.scoreCall para] rfl

/-! ## Claim C7 -/

/-- Claim C7: the ranking step's output is sorted non-increasing by score, and
the sort is stable: for every score value, the elements carrying that score
appear in the sorted list exactly as they appear in the filtered input. -/
theorem claim7_sorted_stable (w : World) (text : String) (key : Option String)
    (k : ℤ) (l : List (JVal × ℚ)) (evs : List Ev)
    (h : top_checkworthy_sentences w text key k = (.ok l, evs)) :
    l.Sorted scoreGE ∧
      ∀ (scored : List (JVal × ℚ)) (c : ℚ),
        (sort_scored scored).filter (fun p => decide (p.2 = c)) =
          (filter_scored scored).filter (fun p => decide (p.2 = c)) := by
  constructor
  · obtain ⟨scored, rfl⟩ := top_checkworthy_ok h
    have hs : (sort_scored scored).Sorted scoreGE :=
      List.sorted_insertionSort scoreGE _
    exact List.Pairwise.sublist (List.take_sublist _ _) hs
  · intro scored c
    have hperm :
        List.Perm ((sort_scored scored).filter (fun p => decide (p.2 = c)))
          ((filter_scored scored).filter (fun p => decide (p.2 = c))) :=
      (List.perm_insertionSort scoreGE (filter_scored scored)).filter _
    have hA_pair :
        ((filter_scored scored).filter (fun p => decide (p.2 = c))).Pairwise
          scoreGE := by
      apply List.pairwise_of_forall_mem_list
      intro a ha b hb
      have ha' := of_decide_eq_true (List.mem_filter.mp ha).2
      have hb' := of_decide_eq_true (List.mem_filter.mp hb).2
      unfold scoreGE
      rw [ha', hb']
    have hsub :
        List.Sublist ((filter_scored scored).filter (fun p => decide (p.2 = c)))
          (sort_scored scored) :=
      List.sublist_insertionSort hA_pair (List.filter_sublist _)
    have hid :
        ((filter_scored scored).filter (fun p => decide (p.2 = c))).filter
            (fun p => decide (p.2 = c)) =
          (filter_scored scored).filter (fun p => decide (p.2 = c)) :=
      List.filter_eq_self.mpr (fun a ha => (List.mem_filter.mp ha).2)
    have hsub2 :
        List.Sublist ((filter_scored scored).filter (fun p => decide (p.2 = c)))
          ((sort_scored scored).filter (fun p => decide (p.2 = c))) := by
      have := hsub.filter (fun p => decide (p.2 = c))
      rwa [hid] at this
    exact (hsub2.eq_of_length hperm.length_eq.symm).symm

/-- Witness for C7 at the concrete world `wOk`. -/
theorem claim7_sorted_stable_w :
    cwOk.Sorted scoreGE ∧
      ∀ (scored : List (JVal × ℚ)) (c : ℚ),
        (sort_scored scored).filter (fun p => decide (p.2 = c)) =
          (filter_scored scored).filter (fun p => decide (p.2 = c)) :=
  claim7_sorted_stable wOk para Option.none 3 cwOk [.scoreCall para] rfl

/-! ## Claim C4 -/

theorem parseScoreBody_shapeless {b : JVal} (h : shapeless b = true) :
    parseScoreBody b = .error (.upstreamError "Unexpected API response format") := by
  cases b <;> first | rfl | simp [shapeless] at h

/-- Claim C4: the scorer fails with a `configurationError` when no credential
is available (neither passed as argument nor present in the environment), with
an `upstreamError` when the scoring collaborator answers a 4xx/5xx status, and
with an `upstreamError` when its body is of unrecognized shape (neither a list
nor a mapping). -/
theorem claim4_scorer_errors (w : World) (text : String)
    (api_key : Option String) (k : ℤ) :
    (truthyOS api_key = false → truthyOS w.keyEnv = false →
      top_checkworthy_sentences w text api_key k =
        (.error (.configurationError
          "Please set CLAIMBUSTER_API_KEY env var or pass api_key argument."),
          [])) ∧
    (truthyOS (effectiveKey api_key w.keyEnv) = true →
      split_into_sentences w.tok text ≠ [] →
      (400 ≤ (w.scoreApi (join_input (split_into_sentences w.tok text))).status ∧
        (w.scoreApi (join_input (split_into_sentences w.tok text))).status < 600) →
      top_checkworthy_sentences w text api_key k =
        (.error (.upstreamError "ClaimBuster API error"),
          [.scoreCall (join_input (split_into_sentences w.tok text))])) ∧
    (truthyOS (effectiveKey api_key w.keyEnv) = true →
      split_into_sentences w.tok text ≠ [] →
      ¬ (400 ≤ (w.scoreApi (join_input (split_into_sentences w.tok text))).status ∧
          (w.scoreApi (join_input (split_into_sentences w.tok text))).status < 600) →
      shapeless (w.scoreApi (join_input (split_into_sentences w.tok text))).body
          = true →
      top_checkworthy_sentences w text api_key k =
        (.error (.upstreamError "Unexpected API response format"),
          [.scoreCall (join_input (split_into_sentences w.tok text))])) := by
  refine ⟨?_, ?_, ?_⟩
  · intro h1 h2
    have hk : truthyOS (effectiveKey api_key w.keyEnv) = false := by
      simp [effectiveKey, h1, h2]
    unfold top_checkworthy_sentences
    simp [hk]
  · intro hk hs hst
    have hne : (split_into_sentences w.tok text).isEmpty = false := by
      cases hsp : split_into_sentences w.tok text with
      | nil => exact absurd hsp hs
      | cons a l => rfl
    unfold top_checkworthy_sentences score_sentences
    simp [hk, hne, hst.1, hst.2]
  · intro hk hs hst hsh
    have hne : (split_into_sentences w.tok text).isEmpty = false := by
      cases hsp : split_into_sentences w.tok text with
      | nil => exact absurd hsp hs
      | cons a l => rfl
    have hcond :
        (decide (400 ≤ (w.scoreApi (join_input (split_into_sentences w.tok text))).status)
          && decide ((w.scoreApi (join_input (split_into_sentences w.tok text))).status < 600))
          = false := by
      rcases not_and_or.mp hst with h | h <;> simp [h]
    unfold top_checkworthy_sentences score_sentences
    simp [hk, hne, hcond, parseScoreBody_shapeless hsh]

/-- Witness for C4: the three failure modes at concrete worlds. -/
theorem claim4_scorer_errors_w :
    top_checkworthy_sentences wNoKey para Option.none 3 =
      (.error (.configurationError
        "Please set CLAIMBUSTER_API_KEY env var or pass api_key argument."),
        []) ∧
    top_checkworthy_sentences wBadStatus para Option.none 3 =
      (.error (.upstreamError "ClaimBuster API error"), [.scoreCall para]) ∧
    top_checkworthy_sentences wBadShape para Option.none 3 =
      (.error (.upstreamError "Unexpected API response format"),
        [.scoreCall para]) :=
  ⟨(claim4_scorer_errors wNoKey para Option.none 3).1 rfl rfl,
   (claim4_scorer_errors wBadStatus para Option.none 3).2.1 rfl (by decide)
     (by decide),
   (claim4_scorer_errors wBadShape para Option.none 3).2.2 rfl (by decide)
     (by decide) rfl⟩

/-! ## Claim C3 -/

theorem extract_claims_ok {w : World} {t : String} {cw : List (JVal × ℚ)}
    {evs : List Ev}
    (h : top_checkworthy_sentences w t Option.none 3 = (.ok cw, evs)) :
    extract_claims w t =
      (.ok (w.llmResp (cw.map (fun p => p.1))),
        evs ++ [.llmCall (cw.map (fun p => p.1))]) := by
  unfold extract_claims check_worth_paragraph
  rw [h]
  rfl

/-- Counterexample to C3: with no ranked sentences at all (empty input text),
`extract_claims` still invokes the text-generation collaborator (the trace
contains an `llmCall` with the empty prompt), and returns the collaborator's
text rather than an empty claim list. -/
theorem claim3_counterexample :
    top_checkworthy_sentences wOk "" Option.none 3 = (.ok [], []) ∧
    extract_claims wOk "" =
      (.ok (some (.list [.str "a", .str "b"])), [.llmCall []]) :=
  ⟨rfl, rfl⟩

/-- Claim C3 amended: when the ranked-sentence list is empty, `extract_claims`
does not short-circuit — it builds the prompt from the empty list, invokes the
text-generation collaborator once, and returns whatever that collaborator
returns. -/
theorem claim3_amended (w : World) (text : String) (evs : List Ev)
    (h : top_checkworthy_sentences w text Option.none 3 = (.ok [], evs)) :
    extract_claims w text = (.ok (w.llmResp []), evs ++ [.llmCall []]) :=
  extract_claims_ok h

/-- Witness for the amended C3 at the concrete world `wOk` with empty text. -/
theorem claim3_amended_w :
    extract_claims wOk "" = (.ok (wOk.llmResp []), [] ++ [.llmCall []]) :=
  claim3_amended wOk "" [] rfl

/-! ## Claim C10 -/

theorem searchLoop_events (w : World) :
    ∀ (cl : List PyLit) (fc : Option (List FactCheckRecord)),
      ∀ e ∈ (searchLoop w cl fc).2, isSearchCall e = true := by
  intro cl
  induction cl with
  | nil =>
    intro fc e he
    simp [searchLoop] at he
  | cons c rest ih =>
    intro fc e he
    unfold searchLoop at he
    split at he
    · rcases List.mem_singleton.mp he with rfl
      rfl
    · rcases List.mem_cons.mp he with rfl | hmem
      · rfl
      · exact ih _ e hmem

/-- Claim C10: `extract_claims` takes the raw paragraph and re-invokes the
checkworthiness scorer (with `top_k = 3`) before building the prompt, so a
successful orchestrator run issues exactly two scoring-collaborator requests
with the same input — one for display, one inside extraction. -/
theorem claim10_scored_twice (w : World) (raw t : String) (wrn : List String)
    (j : PyLit) (cw : List (JVal × ℚ)) (q : String)
    (h1 : raw ≠ "") (h2 : w.procResp raw = .ok (t, wrn))
    (h3 : w.assessResp t = .ok j)
    (h4 : top_checkworthy_sentences w t Option.none 3 =
      (.ok cw, [.scoreCall q])) :
    extract_claims w t =
      (.ok (w.llmResp (cw.map (fun p => p.1))),
        [.scoreCall q, .llmCall (cw.map (fun p => p.1))]) ∧
    ((index w raw).2.filter isScoreCall) = [.scoreCall q, .scoreCall q] := by
  have hex := extract_claims_ok h4
  refine ⟨hex, ?_⟩
  unfold index
  simp only [if_neg h1, h2, h3, h4, hex]
  cases hlit : w.llmResp (cw.map (fun p => p.1)) with
  | none => simp [literal_eval, isScoreCall, List.filter_append]
  | some lit =>
    cases hit : pyIterate lit with
    | error e => simp [literal_eval, hit, isScoreCall, List.filter_append]
    | ok cl =>
      simp only [literal_eval, hit, List.filter_append]
      have hnil : (searchLoop w cl Option.none).2.filter isScoreCall = [] := by
        rw [List.filter_eq_nil_iff]
        intro e he
        have hse := searchLoop_events w cl Option.none e he
        cases e <;> simp_all [isSearchCall, isScoreCall]
      cases hres : (searchLoop w cl Option.none).1.2 with
      | none =>
        simp only [hres, hnil]
        simp [isScoreCall, List.filter_append, hnil]
      | some e =>
        simp only [hres, hnil]
        simp [isScoreCall, List.filter_append, hnil]

/-- Witness for C10 at the concrete world `wOk`. -/
theorem claim10_scored_twice_w :
    extract_claims wOk para =
      (.ok (wOk.llmResp (cwOk.map (fun p => p.1))),
        [.scoreCall para, .llmCall (cwOk.map (fun p => p.1))]) ∧
    ((index wOk para).2.filter isScoreCall) =
      [.scoreCall para, .scoreCall para] :=
  claim10_scored_twice wOk para para [] (.str "ok") cwOk para (by decide)
    rfl rfl rfl

/-! ## Claim C5 -/

/-- Counterexample to C5: extraction text that parses to the literal `[1, 2]`
— not a list of strings — raises no ParseError at all (no flash is recorded)
and the pipeline goes on to query the search collaborator with the integer
claims `1` and `2`. -/
theorem claim5_counterexample :
    isListOfStrings (.list [.int 1, .int 2]) = false ∧
    (index wInts para).1.flashes = [] ∧
    (index wInts para).2.filter isSearchCall =
      [.searchCall (.int 1), .searchCall (.int 2)] :=
  ⟨rfl, rfl, rfl⟩

/-- Claim C5 amended: an error is raised and surfaced only when the returned
text is not a valid Python literal; in that case the `parseError` is flashed,
no search is attempted, and the claims are absent as a whole (never partially
populated).  A literal of the wrong shape (e.g. a list of integers) is
accepted silently. -/
theorem claim5_amended (w : World) (raw t : String) (wrn : List String)
    (j : PyLit) (cw : List (JVal × ℚ)) (evs : List Ev)
    (h1 : raw ≠ "") (h2 : w.procResp raw = .ok (t, wrn))
    (h3 : w.assessResp t = .ok j)
    (h4 : top_checkworthy_sentences w t Option.none 3 = (.ok cw, evs))
    (h5 : w.llmResp (cw.map (fun p => p.1)) = Option.none) :
    index w raw =
      ({ text := some t, warnings := [], raw_input := raw, factcheck := some j,
         fact_checks := Option.none, claim_worthy := some cw,
         flashes := [.parseError "malformed node or string"] },
        [.procCall raw, .assessCall t] ++ evs ++ evs ++
          [.llmCall (cw.map (fun p => p.1))]) := by
  have hex := extract_claims_ok h4
  unfold index
  simp only [if_neg h1, h2, h3, h4, hex, h5, literal_eval]
  simp [List.append_assoc]

/-- Witness for the amended C5 at the concrete world `wNoParse`. -/
theorem claim5_amended_w :
    index wNoParse para =
      ({ text := some para, warnings := [], raw_input := para,
         factcheck := some (.str "ok"), fact_checks := Option.none,
         claim_worthy := some cwOk,
         flashes := [.parseError "malformed node or string"] },
        [.procCall para, .assessCall para] ++ [.scoreCall para] ++
          [.scoreCall para] ++ [.llmCall (cwOk.map (fun p => p.1))]) :=
  claim5_amended wNoParse para para [] (.str "ok") cwOk [.scoreCall para]
    (by decide) rfl rfl rfl rfl

/-! ## Claim C9 -/

theorem pyDictGet_obj (f : List (String × JVal)) (k : String) (d : JVal) :
    pyDictGet (.obj f) k d = .ok ((pyGet f k).getD d) := rfl

theorem jGetD_obj (f : List (String × JVal)) (k : String) (d : JVal) :
    jGetD (.obj f) k d = (pyGet f k).getD d := rfl

theorem mkRecord_ok (ctext cdate : JVal) {r : JVal} (h : reviewOk r = true) :
    mkRecord ctext cdate r = .ok (reviewRecord ctext cdate r) := by
  cases r with
  | obj f =>
    simp only [reviewOk] at h
    split at h
    · rename_i pf heq
      unfold mkRecord reviewRecord
      simp [pyDictGet_obj, jGetD_obj, heq]
    · rename_i heq
      unfold mkRecord reviewRecord
      simp [pyDictGet_obj, jGetD_obj, heq]
    · simp at h
  | null => simp [reviewOk] at h
  | bool b => simp [reviewOk] at h
  | num q => simp [reviewOk] at h
  | str s => simp [reviewOk] at h
  | arr xs => simp [reviewOk] at h

theorem processReviews_ok (ctext cdate : JVal) (rs : List JVal)
    (h : rs.all reviewOk = true) :
    processReviews ctext cdate rs =
      .ok (rs.map (fun r => reviewRecord ctext cdate r)) := by
  induction rs with
  | nil => rfl
  | cons r rs ih =>
    simp only [List.all_cons, Bool.and_eq_true] at h
    unfold processReviews
    simp only [mkRecord_ok ctext cdate h.1, ih h.2, List.map_cons]

theorem processClaims_ok (cs : List JVal) (h : cs.all claimOk = true) :
    processClaims cs =
      .ok (cs.flatMap (fun c => (reviewsOf c).map (fun r => recordOf c r))) := by
  induction cs with
  | nil => rfl
  | cons c cs ih =>
    simp only [List.all_cons, Bool.and_eq_true] at h
    obtain ⟨h1, h2⟩ := h
    unfold processClaims
    cases c with
    | obj f =>
      simp only [claimOk] at h1
      split at h1
      · rename_i rs heq
        simp only [pyDictGet_obj, heq, Option.getD_some, iterArr,
          processReviews_ok _ _ rs h1, ih h2]
        simp [recordOf, reviewsOf, reviewRecord, jGetD, heq]
      · rename_i heq
        simp only [pyDictGet_obj, heq, Option.getD_none, iterArr,
          processReviews, ih h2]
        simp [reviewsOf, heq]
      · simp at h1
    | null => simp [claimOk] at h1
    | bool b => simp [claimOk] at h1
    | num q => simp [claimOk] at h1
    | str s => simp [claimOk] at h1
    | arr xs => simp [claimOk] at h1

/-- Claim C9: for every 200-status response of §3's nested shape, the
aggregator flattens it into exactly one record per review object, in order
(`flatMap`/`map` over claims and reviews); a body with no claims yields the
empty list, not an error; and every missing field of the record is the
explicit sentinel string rather than being omitted. -/
theorem claim9_aggregator_flattens (q : PyLit) (resp : HttpResp)
    (hs : resp.status = 200) (hb : bodyOk resp.body = true) :
    search_fact_checks q resp =
      .ok ((claimsOf resp.body).flatMap
        (fun c => (reviewsOf c).map (fun r => recordOf c r))) ∧
    (claimsOf resp.body = [] → search_fact_checks q resp = .ok []) ∧
    (∀ c : JVal, ∀ f : List (String × JVal),
      (pyGet f "title" = Option.none →
        (recordOf c (.obj f)).title = .str "No title") ∧
      (pyGet f "url" = Option.none →
        (recordOf c (.obj f)).url = .str "No URL") ∧
      (pyGet f "textualRating" = Option.none →
        (recordOf c (.obj f)).rating = .str "No rating") ∧
      (pyGet f "publisher" = Option.none →
        (recordOf c (.obj f)).publisher = .str "Unknown publisher")) ∧
    (∀ r : JVal, ∀ fc : List (String × JVal),
      (pyGet fc "text" = Option.none →
        (recordOf (.obj fc) r).claim = .str "No claim text") ∧
      (pyGet fc "claimDate" = Option.none →
        (recordOf (.obj fc) r).date = .str "Unknown date")) := by
  have hmain : search_fact_checks q resp =
      .ok ((claimsOf resp.body).flatMap
        (fun c => (reviewsOf c).map (fun r => recordOf c r))) := by
    unfold search_fact_checks
    rw [if_neg (by simp [hs])]
    cases hbody : resp.body with
    | obj f =>
      rw [hbody] at hb
      simp only [bodyOk] at hb
      split at hb
      · rename_i cs heq
        simp only [pyDictGet_obj, heq, Option.getD_some, iterArr,
          processClaims_ok cs hb]
        simp [claimsOf, heq]
      · rename_i heq
        simp only [pyDictGet_obj, heq, Option.getD_none, iterArr, processClaims]
        simp [claimsOf, heq]
      · simp at hb
    | null => simp [bodyOk, hbody] at hb
    | bool b => simp [bodyOk, hbody] at hb
    | num n => simp [bodyOk, hbody] at hb
    | str s => simp [bodyOk, hbody] at hb
    | arr xs => simp [bodyOk, hbody] at hb
  refine ⟨hmain, fun he => by rw [hmain, he]; rfl, ?_, ?_⟩
  · intro c f
    refine ⟨fun hn => ?_, fun hn => ?_, fun hn => ?_, fun hn => ?_⟩ <;>
    · simp only [pyGet] at hn
      simp [recordOf, reviewRecord, jGetD, pyGet, hn]
  · intro r fc
    refine ⟨fun hn => ?_, fun hn => ?_⟩ <;>
    · simp only [pyGet] at hn
      simp [recordOf, reviewRecord, jGetD, pyGet, hn]

/-- Witness for C9 at the concrete response `bodyA`. -/
theorem claim9_aggregator_flattens_w :
    search_fact_checks (.str "a") ⟨200, bodyA⟩ =
      .ok ((claimsOf bodyA).flatMap
        (fun c => (reviewsOf c).map (fun r => recordOf c r))) ∧
    (claimsOf bodyA = [] → search_fact_checks (.str "a") ⟨200, bodyA⟩ = .ok []) ∧
    (∀ c : JVal, ∀ f : List (String × JVal),
      (pyGet f "title" = Option.none →
        (recordOf c (.obj f)).title = .str "No title") ∧
      (pyGet f "url" = Option.none →
        (recordOf c (.obj f)).url = .str "No URL") ∧
      (pyGet f "textualRating" = Option.none →
        (recordOf c (.obj f)).rating = .str "No rating") ∧
      (pyGet f "publisher" = Option.none →
        (recordOf c (.obj f)).publisher = .str "Unknown publisher")) ∧
    (∀ r : JVal, ∀ fc : List (String × JVal),
      (pyGet fc "text" = Option.none →
        (recordOf (.obj fc) r).claim = .str "No claim text") ∧
      (pyGet fc "claimDate" = Option.none →
        (recordOf (.obj fc) r).date = .str "Unknown date")) :=
  claim9_aggregator_flattens (.str "a") ⟨200, bodyA⟩ rfl rfl

/-! ## Claim C1 -/

/-- Claim C1 fails on the code: with two extracted claims `"a"` and `"b"`
whose searches return the distinct records `recA` and `recB`, the rendered
report's `fact_checks` holds only `[recB]` — the loop reassigns the single
variable, so claim `"a"`'s records are dropped and no per-claim mapping
exists. -/
theorem claim1_last_claim_only :
    search_fact_checks (.str "a") (wDrop.searchApi (.str "a")) = .ok [recA] ∧
    search_fact_checks (.str "b") (wDrop.searchApi (.str "b")) = .ok [recB] ∧
    (index wDrop para).1.fact_checks = some [recB] ∧
    recA.title ≠ recB.title :=
  ⟨rfl, rfl, rfl, by simp [recA, recB]⟩

/-! ## Claim C2 -/

/-- Counterexample to C2: in `wFail` the search for the first claim `"a"`
fails (HTTP 500); the loop aborts — the second claim `"b"` is never searched,
no empty record list is recorded for `"a"` (`fact_checks` is `none`), and no
warning is recorded (`warnings` is `[]`); the error is only flashed. -/
theorem claim2_counterexample :
    (index wFail para).1.flashes =
      [.upstreamError "Error from Fact Check Tools API"] ∧
    (index wFail para).1.fact_checks = Option.none ∧
    (index wFail para).1.warnings = [] ∧
    (index wFail para).2.filter isSearchCall = [.searchCall (.str "a")] :=
  ⟨rfl, rfl, rfl, rfl⟩

/-- Claim C2 amended: a failure of the fact-check search for a claim raises
an exception that aborts the claim loop: the remaining claims are not
searched, no record list is recorded for the failing claim, no warning is
added (`warnings` stays empty), and the page still renders, with the error
recorded as a flash message and the values computed before the failure. -/
theorem claim2_amended (w : World) (raw t : String) (wrn : List String)
    (j : PyLit) (cw : List (JVal × ℚ)) (evs : List Ev) (lit : PyLit)
    (c : PyLit) (rest : List PyLit)
    (h1 : raw ≠ "") (h2 : w.procResp raw = .ok (t, wrn))
    (h3 : w.assessResp t = .ok j)
    (h4 : top_checkworthy_sentences w t Option.none 3 = (.ok cw, evs))
    (h5 : w.llmResp (cw.map (fun p => p.1)) = some lit)
    (h6 : pyIterate lit = .ok (c :: rest))
    (h7 : (w.searchApi c).status ≠ 200) :
    index w raw =
      ({ text := some t, warnings := [], raw_input := raw, factcheck := some j,
         fact_checks := Option.none, claim_worthy := some cw,
         flashes := [.upstreamError "Error from Fact Check Tools API"] },
        [.procCall raw, .assessCall t] ++ evs ++ evs ++
          [.llmCall (cw.map (fun p => p.1)), .searchCall c]) := by
  have hex := extract_claims_ok h4
  have hsf : search_fact_checks c (w.searchApi c) =
      .error (.upstreamError "Error from Fact Check Tools API") := by
    unfold search_fact_checks
    rw [if_pos h7]
  unfold index
  simp only [if_neg h1, h2, h3, h4, hex, h5, literal_eval, h6]
  unfold searchLoop
  simp [hsf, List.append_assoc]

/-- Witness for the amended C2 at the concrete world `wFail`. -/
theorem claim2_amended_w :
    index wFail para =
      ({ text := some para, warnings := [], raw_input := para,
         factcheck := some (.str "ok"), fact_checks := Option.none,
         claim_worthy := some cwOk,
         flashes := [.upstreamError "Error from Fact Check Tools API"] },
        [.procCall para, .assessCall para] ++ [.scoreCall para] ++
          [.scoreCall para] ++
          [.llmCall (cwOk.map (fun p => p.1)), .searchCall (.str "a")]) :=
  claim2_amended wFail para para [] (.str "ok") cwOk [.scoreCall para]
    (.list [.str "a", .str "b"]) (.str "a") [.str "b"]
    (by decide) rfl rfl rfl rfl rfl (by decide)

end ClaimPolygraph
